import Mathlib

/-!
Shallow embedding of the dtm distributed-transaction coordinator fragment:
the `dtmimp` utility layer (panic/error helpers, response status
interpreter, DSN construction, raw SQL execution) and the example Saga
branch handler guarded by the idempotency Barrier.  Go strings become
`String`, Go `error` becomes `Option DtmError` (with `none` for `nil`),
panics become `Except PanicValue`, and the participant database becomes an
explicit state record.
-/

namespace DtmSpec

/-- Test whether `pat` occurs as a contiguous sublist of the second argument. -/
def isInfixOfList (pat : List Char) : List Char → Bool
  | [] => pat.isEmpty
  | c :: rest => List.isPrefixOf pat (c :: rest) || isInfixOfList pat rest

/-- Go `strings.Contains s sub`: `sub` occurs as a contiguous substring of `s`. -/
def strContains (s sub : String) : Bool :=
  isInfixOfList sub.toList s.toList

/-- Helper for Go `strings.Replace(s, pat, rep, 1)`: replace the first
occurrence of `pat` in the character list. -/
def replaceFirstAux (pat rep : List Char) : List Char → List Char
  | [] => []
  | c :: rest =>
    if List.isPrefixOf pat (c :: rest) then
      rep ++ List.drop pat.length (c :: rest)
    else
      c :: replaceFirstAux pat rep rest

/-- Go `strings.Replace(s, pat, rep, 1)` on strings. -/
def replaceFirst (s pat rep : String) : String :=
  String.mk (replaceFirstAux pat.toList rep.toList s.toList)

/-- Go `error` values that occur in this fragment: the two protocol
sentinels `ErrFailure` / `ErrOngoing` and generic message errors produced
by `errors.New` / `fmt.Errorf`. -/
inductive DtmError where
  | failure
  | ongoing
  | msg (s : String)
deriving DecidableEq, Repr

/-- The `ErrFailure` sentinel (declared outside the shown fragment; the
sentinel identity is all the interpreter compares against). -/
def ErrFailure : DtmError := DtmError.failure

/-- The `ErrOngoing` sentinel. -/
def ErrOngoing : DtmError := DtmError.ongoing

/-- Modelled from the spec: the recognized body markers
"{none=success, FAILURE, ONGOING}"; the constants themselves are declared
outside the shown fragment. -/
def ResultFailure : String := "FAILURE"

/-- Modelled from the spec: the ongoing/in-progress body marker. -/
def ResultOngoing : String := "ONGOING"

/-- Modelled from the spec: the success body marker. -/
def ResultSuccess : String := "SUCCESS"

/-- A value thrown by a Go `panic`: either an `error` value or a
non-error value (rendered by `fmt.Errorf("%v", x)` as a string). -/
inductive PanicValue where
  | isErr (e : DtmError)
  | nonErr (rendered : String)
deriving DecidableEq, Repr

/-- Go `AsError` wraps a panic value as an error: an `error` is returned
unchanged, anything else goes through `fmt.Errorf("%v", x)`. -/
def AsError : PanicValue → DtmError
  | PanicValue.isErr e => e
  | PanicValue.nonErr s => DtmError.msg s

/-- Go `P2E`: the deferred recover.  `recovered` is what `recover()` saw
(`none` when the function returned normally); `perr` is the named result
already in place. -/
def P2E (recovered : Option PanicValue) (perr : Option DtmError) : Option DtmError :=
  match recovered with
  | some x => some (AsError x)
  | none => perr

/-- Go `E2P`: panic on a non-nil error, otherwise return normally.  A Go
computation that may panic is embedded as `Except PanicValue Unit`. -/
def E2P (err : Option DtmError) : Except PanicValue Unit :=
  match err with
  | some e => Except.error (PanicValue.isErr e)
  | none => Except.ok ()

/-- Go `CatchP f`: run `f` with a deferred `P2E`; a normal return yields the
`nil` error set by `return nil`, a panic is recovered into an error. -/
def CatchP (f : Except PanicValue Unit) : Option DtmError :=
  match f with
  | Except.ok _ => P2E none none
  | Except.error x => P2E (some x) none

/-- Go `PanicIf cond err`: panic with `err` when `cond` holds. -/
def PanicIf (cond : Bool) (err : DtmError) : Except PanicValue Unit :=
  if cond then Except.error (PanicValue.isErr err) else Except.ok ()

/-- A `resty.Response`: HTTP status code plus the raw body returned by
`resp.String()`. -/
structure RestyResponse where
  statusCode : Nat
  body : String
deriving DecidableEq, Repr

/-- resty `Response.IsError()`: status code above 399 (non-2xx/3xx). -/
def RestyResponse.IsError (r : RestyResponse) : Bool :=
  r.statusCode > 399

/-- Go `CheckResponse(resp, err)`: on transport success, a non-2xx status
becomes a generic error carrying the body; otherwise the body is scanned
for the failure then the ongoing marker; with neither, the (nil) transport
error is returned. -/
def CheckResponse (resp : Option RestyResponse) (err : Option DtmError) : Option DtmError :=
  match err, resp with
  | none, some r =>
    if r.IsError then some (DtmError.msg r.body)
    else if strContains r.body ResultFailure then some ErrFailure
    else if strContains r.body ResultOngoing then some ErrOngoing
    else none
  | _, _ => err

/-- A result value handed to `CheckResult` (Go `interface{}`): `nil`, a
`*resty.Response`, or another payload represented by the string
`MustMarshalString` serializes it to. -/
inductive ResultVal where
  | nil
  | resp (r : RestyResponse)
  | obj (marshalled : String)
deriving DecidableEq, Repr

/-- Go `CheckResult(res, err)`: a non-nil error is returned as-is; a
`*resty.Response` is delegated to `CheckResponse`; any other non-nil
payload is marshalled and scanned for the failure then the ongoing
marker. -/
def CheckResult (res : ResultVal) (err : Option DtmError) : Option DtmError :=
  match err with
  | some _ => err
  | none =>
    match res with
    | ResultVal.resp r => CheckResponse (some r) none
    | ResultVal.nil => none
    | ResultVal.obj s =>
      if strContains s ResultFailure then some ErrFailure
      else if strContains s ResultOngoing then some ErrOngoing
      else none

/-- The three branch outcomes of the status protocol. -/
inductive Outcome where
  | success
  | failure
  | ongoing
deriving DecidableEq, Repr

/-- Modelled from the spec: the engine (outside the shown fragment) maps
the interpreter error to a retry decision: explicit failure sentinel =>
FAILURE, nil => SUCCESS, anything else (ongoing sentinel or an unknown
error) => ONGOING, "unknown => assume in-progress, retry". -/
def classifyError : Option DtmError → Outcome
  | none => Outcome.success
  | some DtmError.failure => Outcome.failure
  | some DtmError.ongoing => Outcome.ongoing
  | some (DtmError.msg _) => Outcome.ongoing

/-- The dialect adapter interface (the `DBSpecial` contract the test
`TestDBSpecial` exercises): placeholder translation, XA statement text,
timestamp arithmetic, insert-ignoring-duplicates. -/
structure DBSpecial where
  GetPlaceHoldSQL : String → String
  GetXaSQL : String → String → String
  TimestampAdd : Nat → String
  GetInsertIgnoreTemplate : String → String → String

/-- Modelled from the spec: the MySQL dialect adapter (its implementation
is outside the shown fragment; behavior pinned by `TestDBSpecial`):
placeholder SQL is passed through unchanged, XA statements are the native
`xa <op> '<xid>'` form, insert-ignore is `insert ignore into ...` (the
constraint name is unused). -/
def MysqlDBSpecial : DBSpecial where
  GetPlaceHoldSQL := fun sql => sql
  GetXaSQL := fun op xid => "xa " ++ op ++ " \x27" ++ xid ++ "\x27"
  TimestampAdd := fun seconds => "date_add(now(), interval " ++ toString seconds ++ " second)"
  GetInsertIgnoreTemplate := fun tableAndValues _ => "insert ignore into " ++ tableAndValues

/-- Modelled from the spec: the Postgres placeholder rewrite — each `?`
is replaced, left to right, by `$1`, `$2`, ... in order. -/
def postgresPlaceHoldAux (pos : Nat) : List Char → List Char
  | [] => []
  | c :: rest =>
    if c = '?' then '$' :: (toString pos).toList ++ postgresPlaceHoldAux (pos + 1) rest
    else c :: postgresPlaceHoldAux pos rest

/-- Modelled from the spec: the Postgres dialect adapter (implementation
outside the shown fragment; behavior pinned by `TestDBSpecial`): `?`
placeholders become ordinal `$n`, XA `start` is plain `begin`,
insert-ignore is `insert into ... on conflict ON CONSTRAINT <name> do
nothing`.  Only the XA operation exercised by the test is pinned; other
operations pass through. -/
def PostgresDBSpecial : DBSpecial where
  GetPlaceHoldSQL := fun sql => String.mk (postgresPlaceHoldAux 1 sql.toList)
  GetXaSQL := fun op _ => if op = "start" then "begin" else op
  TimestampAdd := fun seconds => "current_timestamp + interval \x27" ++ toString seconds ++ " second\x27"
  GetInsertIgnoreTemplate := fun tableAndValues constraint =>
    "insert into " ++ tableAndValues ++ " on conflict ON CONSTRAINT " ++ constraint ++ " do nothing"

/-- Driver name for MySQL. -/
def DBTypeMysql : String := "mysql"

/-- Driver name for Postgres. -/
def DBTypePostgres : String := "postgres"

/-- Modelled from the spec: dialect selection (a package-level mutable in
the source, threaded explicitly here); "Fatal-at-startup conditions
(unrecognized dialect ...) abort the process"; `TestDBSpecial` requires
`SetCurrentDBType "no-driver"` to panic.  Returns the new current type. -/
def SetCurrentDBType (dbType : String) : Except PanicValue String :=
  if dbType = DBTypeMysql ∨ dbType = DBTypePostgres then Except.ok dbType
  else Except.error (PanicValue.isErr (DtmError.msg ("unknown db type " ++ dbType)))

/-- Modelled from the spec: `GetDBSpecial` returns the adapter for the
current dialect. -/
def GetDBSpecial (currentDBType : String) : DBSpecial :=
  if currentDBType = DBTypePostgres then PostgresDBSpecial else MysqlDBSpecial

/-- Go `MayReplaceLocalhost`: under docker-compose (`IS_DOCKER` set, passed
here as `isDocker`), rewrite the first `localhost` to
`host.docker.internal`. -/
def MayReplaceLocalhost (isDocker : Bool) (host : String) : String :=
  if isDocker then replaceFirst host "localhost" "host.docker.internal"
  else host

/-- Go `GetDsn(conf)`: build the driver-specific DSN from the configuration
map (Go map lookup of a missing key yields `""`, so an unrecognized
driver selects the empty string) and panic on an unknown driver. -/
def GetDsn (isDocker : Bool) (conf : String → String) : Except PanicValue String :=
  let host := MayReplaceLocalhost isDocker (conf "host")
  let driver := conf "driver"
  let mysqlDsn := conf "user" ++ ":" ++ conf "password" ++ "@tcp(" ++ host ++ ":" ++
    conf "port" ++ ")/" ++ conf "database" ++ "?charset=utf8mb4&parseTime=true&loc=Local"
  let postgresDsn := "host=" ++ host ++ " user=" ++ conf "user" ++ " password=" ++
    conf "password" ++ " dbname=\x27" ++ conf "database" ++ "\x27 port=" ++ conf "port" ++
    " sslmode=disable"
  let dsn := if driver = "mysql" then mysqlDsn
    else if driver = "postgres" then postgresDsn
    else ""
  match PanicIf (dsn = "") (DtmError.msg ("unknow driver: " ++ driver)) with
  | Except.error p => Except.error p
  | Except.ok _ => Except.ok dsn

/-- Go `DBExec(db, sql, values...)`: empty SQL short-circuits to
`(0, nil)`; otherwise the SQL goes through the dialect's placeholder
rewrite and is executed, returning the affected row count or the
execution error.  The raw database is embedded as a state-passing `exec`
function; the dialect is passed explicitly in place of the package-level
current dialect. -/
def DBExec {σ : Type} (sp : DBSpecial)
    (exec : σ → String → List String → σ × Except DtmError Int)
    (db : σ) (sql : String) (values : List String) : σ × Int × Option DtmError :=
  if sql = "" then (db, 0, none)
  else
    let sql1 := sp.GetPlaceHoldSQL sql
    match exec db sql1 values with
    | (db1, Except.ok affected) => (db1, affected, none)
    | (db1, Except.error e) => (db1, 0, some e)

/-- Barrier operation kinds for a Saga branch: forward action and its
compensation. -/
inductive OpKind where
  | action
  | compensation
deriving DecidableEq, Repr

/-- The opposing kind checked by the anomaly rules. -/
def oppositeOp : OpKind → OpKind
  | OpKind.action => OpKind.compensation
  | OpKind.compensation => OpKind.action

/-- A BarrierRecord key: (gid, branch-id, operation-kind, sub-barrier-id). -/
structure BarrierKey where
  gid : String
  branchID : String
  op : OpKind
  barrierID : Nat
deriving DecidableEq, Repr

/-- The participant's local database: the durable dedup table of
BarrierRecord rows and the business state, committed atomically together
by the enclosing local transaction. -/
structure BarrierState (σ : Type) where
  records : List BarrierKey
  busi : σ
deriving DecidableEq, Repr

/-- Modelled from the spec: the Barrier guarded call
`Call(localTxHandle, operationKind, businessFn)` (its implementation is
outside the shown fragment).  Within the caller's local transaction:
attempt to insert the BarrierRecord for (gid, branch, kind, sub-id); on
insert-conflict (duplicate call) skip the closure and return success; on
insert success check the opposing-kind record — a compensation with no
prior action record (null compensation) keeps only the marker and skips
the body, an action with an existing compensation record (suspension)
likewise skips; otherwise run the closure, whose error aborts the whole
transaction including the barrier insert. -/
def barrierCall {σ : Type} (gid branchID : String) (op : OpKind) (barrierID : Nat)
    (busiFn : σ → Except DtmError σ) (st : BarrierState σ) :
    BarrierState σ × Option DtmError :=
  let key : BarrierKey := ⟨gid, branchID, op, barrierID⟩
  if key ∈ st.records then
    (st, none)
  else
    let opposing : BarrierKey := ⟨gid, branchID, oppositeOp op, barrierID⟩
    let runBusi : BarrierState σ × Option DtmError :=
      match busiFn st.busi with
      | Except.ok b => (⟨key :: st.records, b⟩, none)
      | Except.error e => (st, some e)
    let skipKeepMarker : BarrierState σ × Option DtmError :=
      (⟨key :: st.records, st.busi⟩, none)
    match op with
    | OpKind.compensation =>
      if opposing ∈ st.records then runBusi else skipKeepMarker
    | OpKind.action =>
      if opposing ∈ st.records then skipKeepMarker else runBusi

/-- Iterate `n` repeated deliveries of the same guarded call (each in its own
local transaction, errors surfacing to the coordinator for retry). -/
def barrierCallN {σ : Type} (gid branchID : String) (op : OpKind) (barrierID : Nat)
    (busiFn : σ → Except DtmError σ) : Nat → BarrierState σ → BarrierState σ
  | 0, st => st
  | n + 1, st => barrierCallN gid branchID op barrierID busiFn n
      (barrierCall gid branchID op barrierID busiFn st).1

/-- The example request payload: the transfer amount. -/
structure TransReq where
  Amount : Int
deriving DecidableEq, Repr

/-- Modelled from the spec: `dtmcli.MapSuccess`, the reply map carrying
the success marker (declared outside the shown fragment), given by its
JSON serialization. -/
def MapSuccess : String := "\x7b\"dtm_result\":\"SUCCESS\"\x7d"

/-- Go `sagaGormBarrierTransOut`: the Saga branch-1 handler.  It opens a
local transaction, and its only mutation — debiting the account by the
request's `Amount` (`balance = balance + (-Amount)` for user 2, the
business state being that balance) — runs inside the Barrier's guarded
call on that transaction; the reply value is `MapSuccess` paired with the
guarded call's error. -/
def sagaGormBarrierTransOut (gid branchID : String) (barrierID : Nat)
    (req : TransReq) (st : BarrierState Int) :
    String × BarrierState Int × Option DtmError :=
  let guarded := barrierCall gid branchID OpKind.action barrierID
    (fun balance => Except.ok (balance + (-req.Amount))) st
  (MapSuccess, guarded.1, guarded.2)

/-! ## Theorems settling the claims -/

/-- Claim C1: for a response received without a transport error and with
a 2xx status, `CheckResponse` (and `CheckResult` on a structured payload)
yields the failure signal when the body contains the failure marker, the
ongoing signal when it contains the ongoing marker and no failure marker,
and success (nil error) when it contains neither. -/
theorem checkResponse_marker_classification (r : RestyResponse) (s : String)
    (h2xx : 200 ≤ r.statusCode ∧ r.statusCode ≤ 299) :
    (strContains r.body ResultFailure = true →
      CheckResponse (some r) none = some ErrFailure) ∧
    (strContains r.body ResultFailure = false → strContains r.body ResultOngoing = true →
      CheckResponse (some r) none = some ErrOngoing) ∧
    (strContains r.body ResultFailure = false → strContains r.body ResultOngoing = false →
      CheckResponse (some r) none = none) ∧
    (strContains s ResultFailure = true →
      CheckResult (ResultVal.obj s) none = some ErrFailure) ∧
    (strContains s ResultFailure = false → strContains s ResultOngoing = true →
      CheckResult (ResultVal.obj s) none = some ErrOngoing) ∧
    (strContains s ResultFailure = false → strContains s ResultOngoing = false →
      CheckResult (ResultVal.obj s) none = none) := by
  have hne : r.IsError = false := by
    simp only [RestyResponse.IsError, decide_eq_false_iff_not, not_lt]
    omega
  refine ⟨?_, ?_, ?_, ?_, ?_, ?_⟩ <;> intros <;>
    simp [CheckResponse, CheckResult, hne, *]

/-- Witness for C1 at a concrete 2xx response and payload. -/
theorem checkResponse_marker_classification_witness :
    CheckResponse (some ⟨200, "x FAILURE y"⟩) none = some ErrFailure ∧
    CheckResult (ResultVal.obj "retry ONGOING") none = some ErrOngoing := by
  have h := checkResponse_marker_classification ⟨200, "x FAILURE y"⟩ "retry ONGOING"
    (by constructor <;> decide)
  exact ⟨h.1 (by decide), h.2.2.2.2.1 (by decide) (by decide)⟩

/-- Claim C2: a non-nil transport error with no parseable body (no
response) is passed through by the interpreter and classified as ONGOING
by the retry mapping — neither FAILURE nor SUCCESS. -/
theorem transport_error_classified_ongoing (s : String) (res : ResultVal) :
    CheckResponse none (some (DtmError.msg s)) = some (DtmError.msg s) ∧
    CheckResult res (some (DtmError.msg s)) = some (DtmError.msg s) ∧
    classifyError (CheckResponse none (some (DtmError.msg s))) = Outcome.ongoing ∧
    classifyError (CheckResult res (some (DtmError.msg s))) = Outcome.ongoing ∧
    classifyError (CheckResponse none (some (DtmError.msg s))) ≠ Outcome.failure ∧
    classifyError (CheckResponse none (some (DtmError.msg s))) ≠ Outcome.success := by
  simp [CheckResponse, CheckResult, classifyError]

/-- Witness for C2 at a concrete transport error. -/
theorem transport_error_classified_ongoing_witness :
    CheckResponse none (some (DtmError.msg "net timeout")) = some (DtmError.msg "net timeout") ∧
    classifyError (CheckResponse none (some (DtmError.msg "net timeout"))) = Outcome.ongoing :=
  ⟨(transport_error_classified_ongoing "net timeout" ResultVal.nil).1,
   (transport_error_classified_ongoing "net timeout" ResultVal.nil).2.2.1⟩

/-- Claim C9: `E2P` of a non-nil error caught by `CatchP` returns exactly
that error, `AsError` is the identity on values that are already errors,
and a function that returns without panicking yields nil from `CatchP`. -/
theorem catchP_E2P_round_trip :
    (∀ e : DtmError, CatchP (E2P (some e)) = some e) ∧
    (∀ u : Unit, CatchP (Except.ok u) = none) ∧
    (∀ e : DtmError, AsError (PanicValue.isErr e) = e) := by
  refine ⟨fun e => ?_, fun u => rfl, fun e => rfl⟩
  simp [CatchP, E2P, P2E, AsError]

/-- Claim C10: `DBExec` on the empty SQL string returns affected `0` and
a nil error, leaves the database state unchanged, and never consults the
execution function (the result is the same for any two of them). -/
theorem dbExec_empty_sql_noop {σ : Type} (sp : DBSpecial)
    (exec exec2 : σ → String → List String → σ × Except DtmError Int)
    (db : σ) (values : List String) :
    DBExec sp exec db "" values = (db, 0, none) ∧
    DBExec sp exec db "" values = DBExec sp exec2 db "" values := by
  constructor <;> simp [DBExec]

/-- Counterexample to Claim C3 as stated: a 500 response whose body is
"busi error" is NOT classified with the failure signal — the interpreter
returns a generic error carrying the body, which the retry mapping treats
as ONGOING. -/
theorem non2xx_failure_counterexample :
    CheckResponse (some ⟨500, "busi error"⟩) none ≠ some ErrFailure ∧
    classifyError (CheckResponse (some ⟨500, "busi error"⟩) none) ≠ Outcome.failure ∧
    CheckResponse (some ⟨500, "busi error"⟩) none = some (DtmError.msg "busi error") := by
  refine ⟨?_, ?_, ?_⟩ <;> decide

/-- Claim C3 amended: for every response with a transport-level error
status (`IsError`, i.e. above 399), the interpreter returns a generic
error carrying the response body — distinct from the failure-marker
signal — and the retry mapping classifies it as ONGOING. -/
theorem non2xx_generic_error_ongoing (r : RestyResponse) (h : r.IsError = true) :
    CheckResponse (some r) none = some (DtmError.msg r.body) ∧
    CheckResponse (some r) none ≠ some ErrFailure ∧
    classifyError (CheckResponse (some r) none) = Outcome.ongoing := by
  simp [CheckResponse, h, classifyError, ErrFailure]

/-- Witness for the amended C3 at a concrete 500 response. -/
theorem non2xx_generic_error_ongoing_witness :
    CheckResponse (some ⟨500, "oops"⟩) none = some (DtmError.msg "oops") ∧
    CheckResponse (some ⟨500, "oops"⟩) none ≠ some ErrFailure ∧
    classifyError (CheckResponse (some ⟨500, "oops"⟩) none) = Outcome.ongoing :=
  non2xx_generic_error_ongoing ⟨500, "oops"⟩ (by decide)

/-- A 2xx body whose structured status field carries the success marker
but whose message data incidentally contains the failure-marker text. -/
def incidentalFailureBody : String :=
  "\x7b\"dtm_result\":\"SUCCESS\",\"message\":\"compensated earlier FAILURE of peer\"\x7d"

/-- The same body with the incidental marker text removed from the data. -/
def noIncidentBody : String :=
  "\x7b\"dtm_result\":\"SUCCESS\",\"message\":\"compensated earlier glitch of peer\"\x7d"

/-- Claim C5: marker matching is substring-based on the full body: a
response whose status field is the success marker but whose payload data
incidentally contains the failure-marker text is classified as FAILURE by
both `CheckResponse` and `CheckResult`, while the same body without the
incidental text is classified as success. -/
theorem substring_marker_misclassification :
    strContains incidentalFailureBody ResultSuccess = true ∧
    CheckResponse (some ⟨200, incidentalFailureBody⟩) none = some ErrFailure ∧
    CheckResult (ResultVal.obj incidentalFailureBody) none = some ErrFailure ∧
    CheckResponse (some ⟨200, noIncidentBody⟩) none = none ∧
    CheckResult (ResultVal.obj noIncidentBody) none = none := by
  refine ⟨?_, ?_, ?_, ?_, ?_⟩ <;> decide

/-- Claim C7: the dialect adapter supports MySQL and Postgres with
materially different translations: MySQL placeholder SQL is unchanged and
insert-ignore renders as `insert ignore into ...`; Postgres rewrites each
`?` to ordinal `$n` in order and insert-ignore renders as `insert into
... on conflict ON CONSTRAINT <name> do nothing` (values pinned by
`TestDBSpecial`). -/
theorem dialect_translations :
    (∀ sql : String, (GetDBSpecial DBTypeMysql).GetPlaceHoldSQL sql = sql) ∧
    (GetDBSpecial DBTypeMysql).GetXaSQL "start" "xa1" = "xa start \x27xa1\x27" ∧
    (GetDBSpecial DBTypeMysql).TimestampAdd 1000 = "date_add(now(), interval 1000 second)" ∧
    (GetDBSpecial DBTypeMysql).GetInsertIgnoreTemplate "a(f) values(?)" "c" =
      "insert ignore into a(f) values(?)" ∧
    (GetDBSpecial DBTypePostgres).GetPlaceHoldSQL "? ?" = "$1 $2" ∧
    (GetDBSpecial DBTypePostgres).GetPlaceHoldSQL "a ? b ? c ?" = "a $1 b $2 c $3" ∧
    (GetDBSpecial DBTypePostgres).GetXaSQL "start" "xa1" = "begin" ∧
    (GetDBSpecial DBTypePostgres).TimestampAdd 1000 =
      "current_timestamp + interval \x271000 second\x27" ∧
    (GetDBSpecial DBTypePostgres).GetInsertIgnoreTemplate "a(f) values(?)" "c" =
      "insert into a(f) values(?) on conflict ON CONSTRAINT c do nothing" := by
  refine ⟨fun sql => rfl, ?_, ?_, ?_, ?_, ?_, ?_, ?_, ?_⟩ <;> decide

/-- A string is nonempty once a nonempty literal is appended on the right. -/
lemma str_append_ne_empty (x c : String) (hc : 0 < c.length) : x ++ c ≠ "" := by
  intro h
  have hl := congrArg String.length h
  rw [String.length_append] at hl
  have h0 : String.length "" = 0 := rfl
  omega

/-- Claim C6: an unrecognized driver makes `GetDsn` panic with the
unknown-driver diagnostic, an unrecognized dialect makes
`SetCurrentDBType` panic, and the two recognized drivers yield a
non-empty DSN. -/
theorem getDsn_unknown_driver_fatal (isDocker : Bool) (conf : String → String) :
    ((conf "driver" ≠ "mysql" ∧ conf "driver" ≠ "postgres") →
      GetDsn isDocker conf =
        Except.error (PanicValue.isErr (DtmError.msg ("unknow driver: " ++ conf "driver")))) ∧
    (∀ t : String, t ≠ DBTypeMysql → t ≠ DBTypePostgres →
      SetCurrentDBType t =
        Except.error (PanicValue.isErr (DtmError.msg ("unknown db type " ++ t)))) ∧
    (conf "driver" = "mysql" → ∃ d, GetDsn isDocker conf = Except.ok d ∧ d ≠ "") ∧
    (conf "driver" = "postgres" → ∃ d, GetDsn isDocker conf = Except.ok d ∧ d ≠ "") := by
  refine ⟨?_, ?_, ?_, ?_⟩
  · rintro ⟨h1, h2⟩
    simp [GetDsn, PanicIf, h1, h2]
  · intro t h1 h2
    rw [DBTypeMysql] at h1
    rw [DBTypePostgres] at h2
    simp [SetCurrentDBType, DBTypeMysql, DBTypePostgres, h1, h2]
  · intro h
    refine ⟨conf "user" ++ ":" ++ conf "password" ++ "@tcp(" ++
      MayReplaceLocalhost isDocker (conf "host") ++ ":" ++ conf "port" ++ ")/" ++
      conf "database" ++ "?charset=utf8mb4&parseTime=true&loc=Local", ?_, ?_⟩
    · have hd := str_append_ne_empty (conf "user" ++ ":" ++ conf "password" ++ "@tcp(" ++
        MayReplaceLocalhost isDocker (conf "host") ++ ":" ++ conf "port" ++ ")/" ++
        conf "database") "?charset=utf8mb4&parseTime=true&loc=Local" (by decide)
      simp [GetDsn, PanicIf, h, hd]
    · exact str_append_ne_empty _ _ (by decide)
  · intro h
    refine ⟨"host=" ++ MayReplaceLocalhost isDocker (conf "host") ++ " user=" ++ conf "user" ++
      " password=" ++ conf "password" ++ " dbname=\x27" ++ conf "database" ++ "\x27 port=" ++
      conf "port" ++ " sslmode=disable", ?_, ?_⟩
    · have hd := str_append_ne_empty ("host=" ++ MayReplaceLocalhost isDocker (conf "host") ++
        " user=" ++ conf "user" ++ " password=" ++ conf "password" ++ " dbname=\x27" ++
        conf "database" ++ "\x27 port=" ++ conf "port") " sslmode=disable" (by decide)
      simp [GetDsn, PanicIf, h, hd]
    · exact str_append_ne_empty _ _ (by decide)

/-- Witness for C6: an unknown driver and dialect panic; mysql and
postgres configurations produce a DSN. -/
theorem getDsn_unknown_driver_fatal_witness :
    GetDsn false (fun k => if k = "driver" then "oracle" else "v") =
      Except.error (PanicValue.isErr (DtmError.msg ("unknow driver: " ++
        (fun k => if k = "driver" then "oracle" else "v") "driver"))) ∧
    SetCurrentDBType "no-driver" =
      Except.error (PanicValue.isErr (DtmError.msg ("unknown db type " ++ "no-driver"))) ∧
    (∃ d, GetDsn false (fun k => if k = "driver" then "mysql" else "v") = Except.ok d ∧ d ≠ "") ∧
    (∃ d, GetDsn false (fun k => if k = "driver" then "postgres" else "v") =
      Except.ok d ∧ d ≠ "") := by
  have ho := getDsn_unknown_driver_fatal false (fun k => if k = "driver" then "oracle" else "v")
  have hm := getDsn_unknown_driver_fatal false (fun k => if k = "driver" then "mysql" else "v")
  have hp := getDsn_unknown_driver_fatal false (fun k => if k = "driver" then "postgres" else "v")
  exact ⟨ho.1 (by constructor <;> decide), ho.2.1 "no-driver" (by decide) (by decide),
    hm.2.2.1 (by decide), hp.2.2.2 (by decide)⟩

/-- One guarded call: the single-call unfolding of `barrierCallN`. -/
lemma barrierCallN_one {σ : Type} (gid bid : String) (op : OpKind) (bno : Nat)
    (f : σ → Except DtmError σ) (st : BarrierState σ) :
    barrierCallN gid bid op bno f 1 st = (barrierCall gid bid op bno f st).1 := rfl

/-- Successor unfolding of `barrierCallN`. -/
lemma barrierCallN_succ {σ : Type} (gid bid : String) (op : OpKind) (bno : Nat)
    (f : σ → Except DtmError σ) (n : Nat) (st : BarrierState σ) :
    barrierCallN gid bid op bno f (n + 1) st =
      barrierCallN gid bid op bno f n (barrierCall gid bid op bno f st).1 := rfl

/-- With the slot's record already present, the guarded call is a no-op
reporting success (the duplicate-call rule). -/
lemma barrierCall_mem {σ : Type} (gid bid : String) (op : OpKind) (bno : Nat)
    (f : σ → Except DtmError σ) (st : BarrierState σ)
    (h : (⟨gid, bid, op, bno⟩ : BarrierKey) ∈ st.records) :
    barrierCall gid bid op bno f st = (st, none) := by
  simp [barrierCall, h]

/-- A guarded call either leaves the state unchanged (rolled back) or
leaves the slot's record in the dedup table. -/
lemma barrierCall_progress {σ : Type} (gid bid : String) (op : OpKind) (bno : Nat)
    (f : σ → Except DtmError σ) (st : BarrierState σ) :
    (barrierCall gid bid op bno f st).1 = st ∨
    (⟨gid, bid, op, bno⟩ : BarrierKey) ∈ (barrierCall gid bid op bno f st).1.records := by
  by_cases h : (⟨gid, bid, op, bno⟩ : BarrierKey) ∈ st.records
  · left
    rw [barrierCall_mem gid bid op bno f st h]
  · cases op with
    | action =>
      by_cases ho : (⟨gid, bid, OpKind.compensation, bno⟩ : BarrierKey) ∈ st.records <;>
        rcases hf : f st.busi with b | e <;>
        simp [barrierCall, h, ho, hf, oppositeOp]
    | compensation =>
      by_cases ho : (⟨gid, bid, OpKind.action, bno⟩ : BarrierKey) ∈ st.records <;>
        rcases hf : f st.busi with b | e <;>
        simp [barrierCall, h, ho, hf, oppositeOp]

/-- The state reached by a guarded call is a fixed point of further
identical guarded calls. -/
lemma barrierCall_state_fix {σ : Type} (gid bid : String) (op : OpKind) (bno : Nat)
    (f : σ → Except DtmError σ) (st : BarrierState σ) :
    (barrierCall gid bid op bno f (barrierCall gid bid op bno f st).1).1 =
      (barrierCall gid bid op bno f st).1 := by
  rcases barrierCall_progress gid bid op bno f st with h | h
  · rw [h, h]
  · rw [barrierCall_mem gid bid op bno f _ h]

/-- Iterating identical guarded calls from the state after one call
changes nothing. -/
lemma barrierCallN_stable {σ : Type} (gid bid : String) (op : OpKind) (bno : Nat)
    (f : σ → Except DtmError σ) (st : BarrierState σ) (n : Nat) :
    barrierCallN gid bid op bno f n (barrierCall gid bid op bno f st).1 =
      (barrierCall gid bid op bno f st).1 := by
  induction n with
  | zero => rfl
  | succ n ih =>
    rw [barrierCallN_succ, barrierCall_state_fix]
    exact ih

/-- Claim C4: N ≥ 1 repeated Barrier-guarded calls with identical
(gid, branch, kind, sub-id) leave the same local database state as a
single call; a single call on a fresh, non-anomalous slot applies the
wrapped business effect exactly once (the slot record is inserted and the
business state advances by one application of the closure). -/
theorem barrier_idempotent {σ : Type} (gid bid : String) (op : OpKind) (bno : Nat)
    (f : σ → Except DtmError σ) (n : Nat) (hn : 1 ≤ n) (st : BarrierState σ) :
    barrierCallN gid bid op bno f n st = barrierCallN gid bid op bno f 1 st ∧
    (∀ (st0 : BarrierState σ) (b : σ),
      (⟨gid, bid, op, bno⟩ : BarrierKey) ∉ st0.records →
      (op = OpKind.action → (⟨gid, bid, OpKind.compensation, bno⟩ : BarrierKey) ∉ st0.records) →
      (op = OpKind.compensation → (⟨gid, bid, OpKind.action, bno⟩ : BarrierKey) ∈ st0.records) →
      f st0.busi = Except.ok b →
      barrierCallN gid bid op bno f 1 st0 = ⟨⟨gid, bid, op, bno⟩ :: st0.records, b⟩) := by
  constructor
  · obtain ⟨m, rfl⟩ : ∃ m, n = m + 1 := ⟨n - 1, by omega⟩
    rw [barrierCallN_succ, barrierCallN_one]
    exact barrierCallN_stable gid bid op bno f st m
  · intro st0 b hkey hact hcomp hok
    rw [barrierCallN_one]
    cases op with
    | action =>
      have ho := hact rfl
      simp [barrierCall, hkey, ho, hok, oppositeOp]
    | compensation =>
      have ho := hcomp rfl
      simp [barrierCall, hkey, ho, hok, oppositeOp]

/-- Witness for C4: three deliveries of a debit-by-30 action on a fresh
slot equal one delivery, whose effect is a single debit. -/
theorem barrier_idempotent_witness :
    barrierCallN "g1" "01" OpKind.action 1 (fun x => Except.ok (x - 30)) 3
        ⟨[], (100 : Int)⟩ =
      barrierCallN "g1" "01" OpKind.action 1 (fun x => Except.ok (x - 30)) 1
        ⟨[], (100 : Int)⟩ ∧
    barrierCallN "g1" "01" OpKind.action 1 (fun x => Except.ok (x - 30)) 1
        ⟨[], (100 : Int)⟩ =
      ⟨[⟨"g1", "01", OpKind.action, 1⟩], (70 : Int)⟩ := by
  have h := barrier_idempotent "g1" "01" OpKind.action 1 (fun x => Except.ok (x - 30)) 3
    (by omega) ⟨[], (100 : Int)⟩
  refine ⟨h.1, ?_⟩
  have h2 := h.2 ⟨[], (100 : Int)⟩ 70 (by simp) (fun _ => by simp)
    (fun hc => absurd hc (by decide)) (by rfl)
  simpa using h2

/-- Claim C8: the Saga branch-1 handler replies with the success-marker
map, its state transition is exactly the Barrier guarded call whose
closure adds `-Amount` to the balance (the mutation happens only inside
the guard), a fresh non-anomalous slot is debited by exactly `Amount`
with no error, and a duplicate delivery leaves the state unchanged. -/
theorem transOut_debits_inside_barrier (gid bid : String) (bno : Nat)
    (req : TransReq) (st : BarrierState Int) :
    (sagaGormBarrierTransOut gid bid bno req st).1 = MapSuccess ∧
    strContains MapSuccess ResultSuccess = true ∧
    strContains MapSuccess ResultFailure = false ∧
    strContains MapSuccess ResultOngoing = false ∧
    (sagaGormBarrierTransOut gid bid bno req st).2 =
      barrierCall gid bid OpKind.action bno
        (fun balance => Except.ok (balance + (-req.Amount))) st ∧
    ((⟨gid, bid, OpKind.action, bno⟩ : BarrierKey) ∉ st.records →
      (⟨gid, bid, OpKind.compensation, bno⟩ : BarrierKey) ∉ st.records →
      (sagaGormBarrierTransOut gid bid bno req st).2.1.busi = st.busi - req.Amount ∧
      (sagaGormBarrierTransOut gid bid bno req st).2.2 = none) ∧
    ((⟨gid, bid, OpKind.action, bno⟩ : BarrierKey) ∈ st.records →
      (sagaGormBarrierTransOut gid bid bno req st).2.1 = st ∧
      (sagaGormBarrierTransOut gid bid bno req st).2.2 = none) := by
  refine ⟨rfl, by decide, by decide, by decide, rfl, ?_, ?_⟩
  · intro h1 h2
    constructor
    · simp [sagaGormBarrierTransOut, barrierCall, h1, h2, oppositeOp, sub_eq_add_neg]
    · simp [sagaGormBarrierTransOut, barrierCall, h1, h2, oppositeOp]
  · intro h
    constructor <;> simp [sagaGormBarrierTransOut, barrierCall, h]

/-- Witness for C8: a debit of 30 on balance 100 with a fresh slot
replies the success map, leaves balance 70, and reports no error. -/
theorem transOut_debits_inside_barrier_witness :
    (sagaGormBarrierTransOut "g2" "01" 1 ⟨30⟩ ⟨[], (100 : Int)⟩).1 = MapSuccess ∧
    (sagaGormBarrierTransOut "g2" "01" 1 ⟨30⟩ ⟨[], (100 : Int)⟩).2.1.busi = (100 : Int) - 30 ∧
    (sagaGormBarrierTransOut "g2" "01" 1 ⟨30⟩ ⟨[], (100 : Int)⟩).2.2 = none := by
  have h := transOut_debits_inside_barrier "g2" "01" 1 ⟨30⟩ ⟨[], (100 : Int)⟩
  have h6 := h.2.2.2.2.2.1 (by simp) (by simp)
  exact ⟨h.1, h6.1, h6.2⟩

end DtmSpec
